import Mathlib

/-
Shallow embedding of `jobs.py` (job-alert aggregation pipeline) and proofs
about the claims of the specification.

Modelling conventions:
* Python strings are `String`; a value that may be `None` is `Option String`.
* Python's `str.lower()` is modelled as ASCII lowering (`Char.toLower`);
  every string the program compares is ASCII.
* `datetime` arithmetic is modelled over `Int` seconds.  The external
  `datetime.fromisoformat` call (together with the aware/naive subtraction
  that happens inside the same `try` block) is modelled as an explicit
  parameter `parse : String → Option Int`: `some t` means the whole `try`
  body evaluates `dt` to the instant `t` seconds, `none` means any exception
  (malformed timestamp, naive/aware mixing) is raised and caught.
* An HTTP fetch (network + JSON decoding / regex extraction over the body)
  is modelled as an explicit input: `none` models the adapter's `except`
  path (network error, malformed response), `some v` the decoded value.
* `requests.post(None, ...)` raises `MissingSchema`; this is modelled by
  `slack_post` returning `Except.error PostError.missingSchema` when the
  webhook is absent.
-/

namespace JobAlerts

/-- ASCII model of Python `str.lower()`. -/
def strLower (s : String) : String := String.mk (s.toList.map Char.toLower)

/-- Python's substring containment `pat in s` (for `str` operands). -/
def containsSub (s pat : String) : Bool :=
  (List.range (s.toList.length + 1)).any (fun i => pat.toList.isPrefixOf (s.toList.drop i))

/-- Python `s.replace("Z", "+00:00")`: every occurrence of the single
character `Z` is replaced. -/
def replaceZ (s : String) : String :=
  String.mk (s.toList.flatMap (fun c => if c = 'Z' then "+00:00".toList else [c]))

/-- Python `str.capitalize()`: first character upper-cased, rest lower-cased. -/
def capitalize (s : String) : String :=
  match s.toList with
  | [] => ""
  | c :: rest => String.mk (c.toUpper :: rest.map Char.toLower)

/-- Python `a or b` for a possibly-`None`, possibly-empty string `a`. -/
def pyOr (a : Option String) (b : String) : String :=
  match a with
  | none => b
  | some s => if s = "" then b else s

/-- Python string interpolation of a possibly-`None` value (`f"{x}"`). -/
def optStr : Option String → String
  | some s => s
  | none => "None"

-- ------------------------------------------------------------------
-- CONFIGURATION  (jobs.py lines 12-35)
-- ------------------------------------------------------------------

def HOURS_WINDOW : Int := 48

def ROLE_KEYWORDS : List String :=
  ["aws cloud engineer", "aws cloud associate", "cloud engineer",
   "cloud associate", "devops engineer", "entry level devops",
   "cloud support associate", "cloud operations engineer",
   "infrastructure engineer"]

def LOCATIONS : List String :=
  ["remote", "india", "bengaluru", "bangalore", "mysore", "chennai",
   "coimbatore", "kochi", "calicut", "kozhikode"]

def EXP_KEYWORDS : List String :=
  ["entry", "junior", "fresher", "0-1", "0 to 1", "1 year"]

def LINKEDIN_KEYWORDS : List String :=
  ["AWS Cloud Engineer associate",
   "DevOps Engineer",
   "Cloud Support Associate",
   "Cloud Operations Engineer associate",
   "Infrastructure Engineer Associate"]

def NAUKRI_KEYWORDS : List String := LINKEDIN_KEYWORDS

-- ------------------------------------------------------------------
-- FILTER HELPERS  (jobs.py lines 41-66)
-- ------------------------------------------------------------------

/-- `matches_role(title, desc)`: any configured role keyword occurs in the
lower-cased concatenation `title + " " + (desc or "")`. -/
def matches_role (title : String) (desc : Option String) : Bool :=
  let text := strLower (title ++ " " ++ desc.getD "")
  ROLE_KEYWORDS.any (fun k => containsSub text k)

/-- `matches_location(loc)`: false on `None`/empty; true when the lower-cased
text contains `"remote"` or any configured location keyword. -/
def matches_location (loc : Option String) : Bool :=
  match loc with
  | none => false
  | some l =>
    if l = "" then false
    else
      let ll := strLower l
      if containsSub ll "remote" then true
      else LOCATIONS.any (fun x => containsSub ll x)

/-- `matches_exp(text)` (defined in the source, wired into no adapter). -/
def matches_exp (text : Option String) : Bool :=
  match text with
  | none => false
  | some t =>
    if t = "" then false
    else EXP_KEYWORDS.any (fun k => containsSub (strLower t) k)

/-- `within_hours(dt_str)`: false on `None`/empty; otherwise the timestamp
(after `Z` → `+00:00` replacement) is parsed and `now - dt` compared against
the 48-hour window; any exception in the `try` body yields false. -/
def within_hours (now : Int) (parse : String → Option Int) (dt_str : Option String) : Bool :=
  match dt_str with
  | none => false
  | some s =>
    if s = "" then false
    else
      match parse (replaceZ s) with
      | none => false
      | some dt => decide (now - dt ≤ HOURS_WINDOW * 3600)

-- ------------------------------------------------------------------
-- CANONICAL JOB RECORD  (the dict appended by every adapter)
-- ------------------------------------------------------------------

/-- The record dictionary every adapter appends.  Fields that the source can
set to `None` (values of `dict.get` without a default) are `Option String`. -/
structure Job where
  title : String
  company : Option String
  location : Option String
  type : String
  experience : String
  skills : String
  url : Option String
  source : String
deriving DecidableEq, Repr

-- ------------------------------------------------------------------
-- RAW ORIGIN ITEMS (one structure per origin's decoded JSON item /
-- per-origin regex-extraction result)
-- ------------------------------------------------------------------

/-- One element of Remotive's `jobs` array, restricted to the fields the
adapter reads.  Fields read with `job.get(k, "")` are `String` (the default
stands in for an absent key); fields read with `job.get(k)` are `Option`. -/
structure RemotiveJob where
  title : String
  description : String
  candidate_required_location : String
  publication_date : Option String
  company_name : Option String
  tags : List String
  url : Option String
deriving DecidableEq, Repr

/-- One element of ArbeitNow's `data` array.  `remote` is the JSON boolean
(an absent key and `false` are both falsy in the source's test). -/
structure ArbeitnowJob where
  title : String
  description : String
  location : String
  created_at : Option String
  company_name : Option String
  remote : Bool
  experience_level : Option String
  tags : List String
  url : Option String
deriving DecidableEq, Repr

/-- One Lever posting.  `categories_location` is `categories["location"]`;
`none` models the key being absent (the source defaults it to "Remote"). -/
structure LeverJob where
  text : String
  description : String
  categories_location : Option String
  hostedUrl : Option String
deriving DecidableEq, Repr

/-- One Greenhouse posting; `location_name` is `location["name"]` read with
default `""`. -/
structure GreenhouseJob where
  title : String
  location_name : String
  content : String
  absolute_url : Option String
deriving DecidableEq, Repr

/-- The four `re.findall` result lists of one Indeed results page. -/
structure IndeedExtract where
  titles : List String
  companies : List String
  locations : List String
  ids : List String
deriving DecidableEq, Repr

/-- The three `re.findall` result lists of one Naukri results page. -/
structure NaukriExtract where
  titles : List String
  companies : List String
  links : List String
deriving DecidableEq, Repr

-- ------------------------------------------------------------------
-- JOB SOURCE 1 — REMOTIVE  (jobs.py lines 129-153)
-- ------------------------------------------------------------------

/-- The filter condition of the Remotive loop. -/
def remotive_guard (now : Int) (parse : String → Option Int) (j : RemotiveJob) : Bool :=
  matches_role j.title (some j.description) &&
  matches_location (some j.candidate_required_location) &&
  within_hours now parse j.publication_date

/-- The record the Remotive loop appends for a passing item. -/
def remotive_record (j : RemotiveJob) : Job :=
  { title := j.title
    company := j.company_name
    location := some j.candidate_required_location
    type := "Remote"
    experience := "Entry"
    skills := String.intercalate ", " j.tags
    url := j.url
    source := "Remotive" }

/-- `search_remotive()`.  `fetched = none` models the `except` path (network
error or malformed JSON): the adapter contributes nothing. -/
def search_remotive (now : Int) (parse : String → Option Int)
    (fetched : Option (List RemotiveJob)) : List Job :=
  match fetched with
  | none => []
  | some data =>
    data.filterMap (fun j => if remotive_guard now parse j then some (remotive_record j) else none)

-- ------------------------------------------------------------------
-- JOB SOURCE 2 — ARBEITNOW  (jobs.py lines 159-182)
-- ------------------------------------------------------------------

def arbeitnow_guard (now : Int) (parse : String → Option Int) (j : ArbeitnowJob) : Bool :=
  matches_role j.title (some j.description) &&
  matches_location (some j.location) &&
  within_hours now parse j.created_at

def arbeitnow_record (j : ArbeitnowJob) : Job :=
  { title := j.title
    company := j.company_name
    location := some j.location
    type := if j.remote then "Remote" else "Hybrid/On-site"
    experience := pyOr j.experience_level "Entry"
    skills := String.intercalate ", " j.tags
    url := j.url
    source := "ArbeitNow" }

def search_arbeitnow (now : Int) (parse : String → Option Int)
    (fetched : Option (List ArbeitnowJob)) : List Job :=
  match fetched with
  | none => []
  | some data =>
    data.filterMap (fun j => if arbeitnow_guard now parse j then some (arbeitnow_record j) else none)

-- ------------------------------------------------------------------
-- JOB SOURCE 3 — LEVER  (jobs.py lines 188-218)
-- ------------------------------------------------------------------

def LEVER_COMPANIES : List String := ["netflix", "shopify", "datadog", "dropbox", "snyk"]

/-- `job.get("categories", {}).get("location", "Remote")`. -/
def lever_loc (j : LeverJob) : String := j.categories_location.getD "Remote"

def lever_guard (j : LeverJob) : Bool :=
  matches_role j.text (some j.description) && matches_location (some (lever_loc j))

def lever_record (c : String) (j : LeverJob) : Job :=
  { title := j.text
    company := some (capitalize c)
    location := some (lever_loc j)
    type := "Unknown"
    experience := "Not specified"
    skills := "N/A"
    url := j.hostedUrl
    source := "Lever" }

/-- The inner loop of `search_lever` for one company's postings list. -/
def lever_items (c : String) (postings : List LeverJob) : List Job :=
  postings.filterMap (fun j => if lever_guard j then some (lever_record c j) else none)

/-- `search_lever()`.  `fetch c = none` models the per-company `except` path. -/
def search_lever (fetch : String → Option (List LeverJob)) : List Job :=
  LEVER_COMPANIES.flatMap (fun c =>
    match fetch c with
    | none => []
    | some ps => lever_items c ps)

-- ------------------------------------------------------------------
-- JOB SOURCE 4 — GREENHOUSE  (jobs.py lines 224-254)
-- ------------------------------------------------------------------

def GREENHOUSE_COMPANIES : List String := ["cloudflare", "airbnb", "twilio"]

def greenhouse_guard (j : GreenhouseJob) : Bool :=
  matches_role j.title (some j.content) && matches_location (some j.location_name)

def greenhouse_record (c : String) (j : GreenhouseJob) : Job :=
  { title := j.title
    company := some (capitalize c)
    location := some j.location_name
    type := "Unknown"
    experience := "Not specified"
    skills := "N/A"
    url := j.absolute_url
    source := "Greenhouse" }

def greenhouse_items (c : String) (data : List GreenhouseJob) : List Job :=
  data.filterMap (fun j => if greenhouse_guard j then some (greenhouse_record c j) else none)

def search_greenhouse (fetch : String → Option (List GreenhouseJob)) : List Job :=
  GREENHOUSE_COMPANIES.flatMap (fun c =>
    match fetch c with
    | none => []
    | some data => greenhouse_items c data)

-- ------------------------------------------------------------------
-- JOB SOURCE 5 — LINKEDIN  (jobs.py lines 260-289)
-- ------------------------------------------------------------------

/-- The record built for one extracted LinkedIn job id (note: no filter is
applied in this loop; the title is the query keyword itself). -/
def linkedin_record (keyword job_id : String) : Job :=
  { title := keyword
    company := some "LinkedIn Listing"
    location := some "India"
    type := "Unknown"
    experience := "Entry"
    skills := "N/A"
    url := some ("https://www.linkedin.com/jobs/view/" ++ job_id)
    source := "LinkedIn" }

/-- `search_linkedin()`.  `fetch k` is the list of ids `re.findall` extracts
from the page for keyword `k`; `none` models the per-keyword `except` path. -/
def search_linkedin (fetch : String → Option (List String)) : List Job :=
  LINKEDIN_KEYWORDS.flatMap (fun k =>
    match fetch k with
    | none => []
    | some ids => ids.map (fun job_id => linkedin_record k job_id))

-- ------------------------------------------------------------------
-- JOB SOURCE 6 — INDEED  (jobs.py lines 295-327)
-- ------------------------------------------------------------------

/-- The loop bound `min(len(titles), len(companies), len(ids))` — note that
`locations` is NOT part of the minimum. -/
def indeed_bound (e : IndeedExtract) : Nat :=
  Nat.min e.titles.length (Nat.min e.companies.length e.ids.length)

/-- The record built at index `i`; `locations[i] if i < len(locations) else
"India"` is exactly `List.getD` (the other `getD` defaults are unreachable
because `i < indeed_bound e`). -/
def indeed_record (e : IndeedExtract) (i : Nat) : Job :=
  { title := e.titles.getD i ""
    company := some (e.companies.getD i "")
    location := some (e.locations.getD i "India")
    type := "Unknown"
    experience := "Entry"
    skills := "N/A"
    url := some ("https://in.indeed.com/viewjob?jk=" ++ e.ids.getD i "")
    source := "Indeed" }

/-- The inner loop of `search_indeed` for one page's extraction (the source
checks `matches_role(titles[i], titles[i])`, passing the title as the
description as well). -/
def indeed_items (e : IndeedExtract) : List Job :=
  (List.range (indeed_bound e)).filterMap (fun i =>
    if matches_role (e.titles.getD i "") (some (e.titles.getD i "")) then
      some (indeed_record e i)
    else none)

def search_indeed (fetch : String → Option IndeedExtract) : List Job :=
  LINKEDIN_KEYWORDS.flatMap (fun k =>
    match fetch k with
    | none => []
    | some e => indeed_items e)

-- ------------------------------------------------------------------
-- JOB SOURCE 7 — NAUKRI  (jobs.py lines 333-359)
-- ------------------------------------------------------------------

def naukri_bound (e : NaukriExtract) : Nat :=
  Nat.min e.titles.length (Nat.min e.companies.length e.links.length)

def naukri_record (e : NaukriExtract) (i : Nat) : Job :=
  { title := e.titles.getD i ""
    company := some (e.companies.getD i "")
    location := some "India"
    type := "Unknown"
    experience := "Entry"
    skills := "N/A"
    url := some (e.links.getD i "")
    source := "Naukri" }

def naukri_items (e : NaukriExtract) : List Job :=
  (List.range (naukri_bound e)).filterMap (fun i =>
    if matches_role (e.titles.getD i "") (some (e.titles.getD i "")) then
      some (naukri_record e i)
    else none)

def search_naukri (fetch : String → Option NaukriExtract) : List Job :=
  NAUKRI_KEYWORDS.flatMap (fun k =>
    match fetch k with
    | none => []
    | some e => naukri_items e)

-- ------------------------------------------------------------------
-- BLOCK KIT JOB CARD  (jobs.py lines 98-123)
-- ------------------------------------------------------------------

/-- A Block Kit element: the section card, the action button (carrying the
posting url value, possibly `None`), or the divider. -/
inductive Block where
  | card (text : String)
  | actions (url : Option String)
  | divider
deriving DecidableEq, Repr

/-- `build_job_block(job)`: the three elements appended per record. -/
def build_job_block (job : Job) : List Block :=
  [Block.card
      ("*" ++ job.title ++ "* — `" ++ optStr job.company ++ "`\n" ++
       "*Location:* " ++ optStr job.location ++ " | *Type:* " ++ job.type ++ "\n" ++
       "*Experience:* " ++ job.experience ++ "\n" ++
       "*Skills:* " ++ job.skills),
   Block.actions job.url,
   Block.divider]

-- ------------------------------------------------------------------
-- SLACK SENDERS  (jobs.py lines 72-92)
-- ------------------------------------------------------------------

/-- The response of one `requests.post`: HTTP status, and the value of
`r.json().get("ts")` (`none` when the body carries no "ts"). -/
structure SlackResponse where
  status : Nat
  ts : Option String
deriving DecidableEq, Repr

/-- A request body sent to the webhook: a plain-text payload, or a
page payload carrying `thread_ts` and a list of blocks. -/
inductive Payload where
  | text (s : String)
  | page (thread_ts : Option String) (blocks : List Block)
deriving DecidableEq, Repr

def isPage : Payload → Bool
  | Payload.page _ _ => true
  | Payload.text _ => false

/-- The exception `requests.post` raises when the URL is `None`
(`SLACK_WEBHOOK` unset ⇒ `MissingSchema: Invalid URL 'None'`). -/
inductive PostError where
  | missingSchema
deriving DecidableEq, Repr

/-- `slack_post(payload)`: posts to `SLACK_WEBHOOK`.  An absent webhook makes
`requests.post` raise, modelled as `Except.error`; otherwise the network
oracle `net` answers the request (a non-200 answer is only printed). -/
def slack_post (webhook : Option String) (net : Payload → SlackResponse)
    (p : Payload) : Except PostError SlackResponse :=
  match webhook with
  | none => Except.error PostError.missingSchema
  | some _ => Except.ok (net p)

def header_text : String :=
  "*🌤️ Daily Cloud & DevOps Job Alerts*\nJobs posted in last 48 hours."

/-- The iteration starts of `range(0, len, chunk_size)` (for a positive
`chunk_size`, as in every call site, where it is 8). -/
def pageStarts (len chunk_size : Nat) : List Nat :=
  (List.range ((len + chunk_size - 1) / chunk_size)).map (fun j => j * chunk_size)

/-- `send_blockkit_paginated(blocks, chunk_size)`, returning the trace of
request payloads actually posted (in order).  After a 200 header, every page
is posted through `slack_post` with the same present webhook, which cannot
raise, so the trace is the header followed by all pages (a non-200 page
response is only printed and skipped). -/
def send_blockkit_paginated (webhook : Option String) (net : Payload → SlackResponse)
    (blocks : List Block) (chunk_size : Nat) : Except PostError (List Payload) :=
  match slack_post webhook net (Payload.text header_text) with
  | Except.error e => Except.error e
  | Except.ok r =>
    if r.status ≠ 200 then Except.ok [Payload.text header_text]
    else
      Except.ok (Payload.text header_text ::
        (pageStarts blocks.length chunk_size).map
          (fun i => Payload.page r.ts ((blocks.drop i).take chunk_size)))

-- ------------------------------------------------------------------
-- MAIN AGGREGATOR  (jobs.py lines 365-385)
-- ------------------------------------------------------------------

/-- The aggregation expression of `main`: the seven adapters' results
concatenated in registration order. -/
def main_jobs (now : Int) (parse : String → Option Int)
    (rf : Option (List RemotiveJob)) (af : Option (List ArbeitnowJob))
    (lf : String → Option (List LeverJob)) (gf : String → Option (List GreenhouseJob))
    (lif : String → Option (List String)) (inf : String → Option IndeedExtract)
    (nf : String → Option NaukriExtract) : List Job :=
  search_remotive now parse rf ++ search_arbeitnow now parse af ++
  search_lever lf ++ search_greenhouse gf ++ search_linkedin lif ++
  search_indeed inf ++ search_naukri nf

def NO_JOBS_TEXT : String := "No matching jobs found in last 48 hours."

/-- The block-building loop of `main`: `blocks += build_job_block(job)`. -/
def main_blocks (jobs : List Job) : List Block :=
  jobs.flatMap build_job_block

/-- The delivery phase of `main` on the aggregated jobs, returning the trace
of posted payloads (or the uncaught exception). -/
def main_run (webhook : Option String) (net : Payload → SlackResponse)
    (jobs : List Job) : Except PostError (List Payload) :=
  if jobs.isEmpty then
    match slack_post webhook net (Payload.text NO_JOBS_TEXT) with
    | Except.error e => Except.error e
    | Except.ok _ => Except.ok [Payload.text NO_JOBS_TEXT]
  else
    send_blockkit_paginated webhook net (main_blocks jobs) 8

/-- `main()`: aggregation runs first and unconditionally; its result is the
first component, the delivery outcome the second. -/
def main (webhook : Option String) (net : Payload → SlackResponse)
    (now : Int) (parse : String → Option Int)
    (rf : Option (List RemotiveJob)) (af : Option (List ArbeitnowJob))
    (lf : String → Option (List LeverJob)) (gf : String → Option (List GreenhouseJob))
    (lif : String → Option (List String)) (inf : String → Option IndeedExtract)
    (nf : String → Option NaukriExtract) : List Job × Except PostError (List Payload) :=
  let jobs := main_jobs now parse rf af lf gf lif inf nf
  (jobs, main_run webhook net jobs)

-- ------------------------------------------------------------------
-- HELPER LEMMAS
-- ------------------------------------------------------------------

/-- Members of a guarded `filterMap` (the shape of every adapter loop) come
from a source item that passed the guard. -/
theorem mem_guard_filterMap {α β : Type} (g : α → Bool) (f : α → β) (l : List α) (r : β)
    (h : r ∈ l.filterMap (fun a => if g a then some (f a) else none)) :
    ∃ a, a ∈ l ∧ g a = true ∧ r = f a := by
  rcases List.mem_filterMap.mp h with ⟨a, ha, hfa⟩
  by_cases hg : g a = true
  · rw [if_pos hg] at hfa
    exact ⟨a, ha, hg, (Option.some.inj hfa).symm⟩
  · rw [if_neg hg] at hfa
    cases hfa

/-- `List.getD` at an in-range index is a member of the list. -/
theorem getD_mem_of_lt {α : Type} (l : List α) (i : Nat) (d : α) (h : i < l.length) :
    l.getD i d ∈ l := by
  induction l generalizing i with
  | nil => simp at h
  | cons a tl ih =>
    cases i with
    | zero => simp
    | succ n =>
      simp only [List.getD_cons_succ]
      exact List.mem_cons_of_mem a (ih n (by simpa using h))

/-- A string append with a nonempty left part is nonempty. -/
theorem append_ne_empty_left (a b : String) (h : a.toList ≠ []) : a ++ b ≠ "" := by
  intro hc
  apply h
  have hdata : (a ++ b).toList = a.toList ++ b.toList := by
    cases a
    cases b
    rfl
  have : a.toList ++ b.toList = [] := by
    rw [← hdata, hc]
    rfl
  exact (List.append_eq_nil.mp this).1

-- ------------------------------------------------------------------
-- CLAIMS
-- ------------------------------------------------------------------

/-- C8: `within_hours` is false on an absent (`None`/empty) timestamp, false
when the `try` body fails (`parse` returns `none`), false for timestamps
older than the 48-hour window, and true for every timestamp the code parses
that lies within the window. -/
theorem C8_within_hours_spec (now dt : Int) (parse : String → Option Int) (s : String) :
    within_hours now parse none = false
  ∧ within_hours now parse (some "") = false
  ∧ (parse (replaceZ s) = none → within_hours now parse (some s) = false)
  ∧ (parse (replaceZ s) = some dt → HOURS_WINDOW * 3600 < now - dt →
      within_hours now parse (some s) = false)
  ∧ (s ≠ "" → parse (replaceZ s) = some dt → now - dt ≤ HOURS_WINDOW * 3600 →
      within_hours now parse (some s) = true) := by
  refine ⟨rfl, rfl, ?_, ?_, ?_⟩
  · intro hp
    by_cases hs : s = ""
    · simp [within_hours, hs]
    · simp [within_hours, hs, hp]
  · intro hp hlt
    by_cases hs : s = ""
    · simp [within_hours, hs]
    · simp [within_hours, hs, hp]
      omega
  · intro hs hp hle
    simp [within_hours, hs, hp, hle]

def parseC8 : String → Option Int :=
  fun t => if t = "2026-01-01T00:00:00+00:00" then some 1000 else none

theorem C8_within_hours_spec_witness :
    within_hours 1000 parseC8 (some "2026-01-01T00:00:00Z") = true
  ∧ within_hours 200000 parseC8 (some "2026-01-01T00:00:00Z") = false
  ∧ within_hours 1000 parseC8 (some "not a timestamp") = false
  ∧ within_hours 1000 parseC8 none = false := by
  refine ⟨?_, ?_, ?_, ?_⟩
  · exact (C8_within_hours_spec 1000 1000 parseC8 "2026-01-01T00:00:00Z").2.2.2.2
      (by decide) (by decide) (by decide)
  · exact (C8_within_hours_spec 200000 1000 parseC8 "2026-01-01T00:00:00Z").2.2.2.1
      (by decide) (by decide)
  · exact (C8_within_hours_spec 1000 0 parseC8 "not a timestamp").2.2.1 (by decide)
  · exact (C8_within_hours_spec 1000 0 parseC8 "x").1

/-- C10: a well-formed timestamp denoting a future instant (`now < dt`) makes
`within_hours` true: `now - dt` is negative, hence within the window. -/
theorem C10_future_timestamp (now dt : Int) (parse : String → Option Int) (s : String)
    (hs : s ≠ "") (hp : parse (replaceZ s) = some dt) (hf : now < dt) :
    within_hours now parse (some s) = true := by
  simp [within_hours, hs, hp, HOURS_WINDOW]
  omega

def parseC10 : String → Option Int :=
  fun t => if t = "2026-01-02T00:00:00+00:00" then some 5000 else none

theorem C10_future_timestamp_witness :
    within_hours 1000 parseC10 (some "2026-01-02T00:00:00Z") = true :=
  C10_future_timestamp 1000 5000 parseC10 "2026-01-02T00:00:00Z"
    (by decide) (by decide) (by decide)

/-- C9: a Lever posting whose `categories` object lacks a location defaults
to `"Remote"`, on which `matches_location` is true, so a role-matching
posting with an absent location is emitted (missing location does not fail
closed for this adapter). -/
theorem C9_lever_missing_location (c : String) (postings : List LeverJob) (j : LeverJob)
    (hmem : j ∈ postings) (hloc : j.categories_location = none)
    (hrole : matches_role j.text (some j.description) = true) :
    lever_loc j = "Remote"
  ∧ matches_location (some "Remote") = true
  ∧ lever_record c j ∈ lever_items c postings := by
  have hl : lever_loc j = "Remote" := by simp [lever_loc, hloc]
  refine ⟨hl, by decide, ?_⟩
  apply List.mem_filterMap.mpr
  refine ⟨j, hmem, ?_⟩
  have hg : lever_guard j = true := by
    unfold lever_guard
    rw [hrole, hl]
    decide
  simp [hg]

def jC9 : LeverJob :=
  { text := "cloud engineer", description := "", categories_location := none,
    hostedUrl := some "https://jobs.lever.co/x" }

theorem C9_lever_missing_location_witness :
    lever_loc jC9 = "Remote"
  ∧ matches_location (some "Remote") = true
  ∧ lever_record "netflix" jC9 ∈ lever_items "netflix" [jC9] :=
  C9_lever_missing_location "netflix" [jC9] jC9 (by decide) (by decide) (by decide)

/-- C6: the aggregated sequence of `main` is the concatenation of the seven
adapters' outputs in registration order (Remotive, ArbeitNow, Lever,
Greenhouse, LinkedIn, Indeed, Naukri), so its length is the sum of the
individual output lengths. -/
theorem C6_aggregation_concat (now : Int) (parse : String → Option Int)
    (rf : Option (List RemotiveJob)) (af : Option (List ArbeitnowJob))
    (lf : String → Option (List LeverJob)) (gf : String → Option (List GreenhouseJob))
    (lif : String → Option (List String)) (inf : String → Option IndeedExtract)
    (nf : String → Option NaukriExtract) :
    main_jobs now parse rf af lf gf lif inf nf
      = search_remotive now parse rf ++ (search_arbeitnow now parse af ++
        (search_lever lf ++ (search_greenhouse gf ++ (search_linkedin lif ++
        (search_indeed inf ++ search_naukri nf)))))
  ∧ (main_jobs now parse rf af lf gf lif inf nf).length
      = (search_remotive now parse rf).length + (search_arbeitnow now parse af).length +
        (search_lever lf).length + (search_greenhouse gf).length +
        (search_linkedin lif).length + (search_indeed inf).length +
        (search_naukri nf).length := by
  constructor
  · simp [main_jobs, List.append_assoc]
  · simp [main_jobs, List.length_append]
    omega

/-- C3 amended: `main` renders every aggregated record — exactly three block
elements per record, with no truncation of the record count. -/
theorem C3_no_truncation (jobs : List Job) :
    (main_blocks jobs).length = 3 * jobs.length := by
  unfold main_blocks
  induction jobs with
  | nil => rfl
  | cons j tl ih =>
    rw [List.flatMap_cons, List.length_append, ih]
    simp [build_job_block]
    omega

def jC3 : Job :=
  { title := "t", company := none, location := none, type := "Unknown",
    experience := "Entry", skills := "N/A", url := none, source := "X" }

set_option maxRecDepth 4000 in
/-- C3 counterexample: 41 aggregated records are rendered as 123 block
elements (41 rendered records), not the `min 41 40 = 40` records the claim
requires. -/
theorem C3_counterexample :
    (main_blocks (List.replicate 41 jC3)).length = 123
  ∧ Nat.min 41 40 = 40
  ∧ (123 : Nat) ≠ 3 * Nat.min 41 40 := by
  refine ⟨by decide, by decide, by decide⟩

/-- C4 amended: with the webhook credential absent, aggregation still runs
(and equals the adapters' concatenation), but every `slack_post` call raises
the HTTP library's invalid-URL error instead of no-oping, so `main` crashes
in its delivery phase. -/
theorem C4_missing_webhook_raises (net : Payload → SlackResponse) (p : Payload)
    (now : Int) (parse : String → Option Int)
    (rf : Option (List RemotiveJob)) (af : Option (List ArbeitnowJob))
    (lf : String → Option (List LeverJob)) (gf : String → Option (List GreenhouseJob))
    (lif : String → Option (List String)) (inf : String → Option IndeedExtract)
    (nf : String → Option NaukriExtract) :
    slack_post none net p = Except.error PostError.missingSchema
  ∧ (main none net now parse rf af lf gf lif inf nf).1
      = main_jobs now parse rf af lf gf lif inf nf
  ∧ (main none net now parse rf af lf gf lif inf nf).2
      = Except.error PostError.missingSchema := by
  refine ⟨rfl, rfl, ?_⟩
  show main_run none net (main_jobs now parse rf af lf gf lif inf nf)
        = Except.error PostError.missingSchema
  unfold main_run
  by_cases h : (main_jobs now parse rf af lf gf lif inf nf).isEmpty
  · simp [h, slack_post]
  · simp [h, send_blockkit_paginated, slack_post]

def netC4 : Payload → SlackResponse := fun _ => { status := 200, ts := some "1" }

def parseNone : String → Option Int := fun _ => none

def noFetch {α : Type} : String → Option α := fun _ => none

/-- C4 counterexample: with the credential absent, `slack_post` does not
return normally — it raises `MissingSchema` (modelled as `Except.error`),
and the delivery phase of `main` propagates it. -/
theorem C4_counterexample :
    slack_post none netC4 (Payload.text NO_JOBS_TEXT) = Except.error PostError.missingSchema
  ∧ (main none netC4 0 parseNone none none noFetch noFetch noFetch noFetch noFetch).2
      = Except.error PostError.missingSchema := ⟨rfl, rfl⟩

/-- C5 amended: in every run whose delivery completes with trace `tr`, the
header request is the first request; a non-200 header response means the
trace is exactly the header (zero page requests); page requests occur only
when the header returned 200, and every page carries the `ts` value captured
from the header response (which may be absent). -/
theorem C5_header_gates_pages (webhook : Option String) (net : Payload → SlackResponse)
    (blocks : List Block) (chunk_size : Nat) (tr : List Payload)
    (h : send_blockkit_paginated webhook net blocks chunk_size = Except.ok tr) :
    tr.head? = some (Payload.text header_text)
  ∧ ((net (Payload.text header_text)).status ≠ 200 → tr = [Payload.text header_text])
  ∧ (∀ p ∈ tr, isPage p = true → (net (Payload.text header_text)).status = 200)
  ∧ (∀ t bs, Payload.page t bs ∈ tr → t = (net (Payload.text header_text)).ts) := by
  cases webhook with
  | none => simp [send_blockkit_paginated, slack_post] at h
  | some w =>
    by_cases hst : (net (Payload.text header_text)).status = 200
    · have htr : tr = Payload.text header_text ::
          (pageStarts blocks.length chunk_size).map
            (fun i => Payload.page (net (Payload.text header_text)).ts
              ((blocks.drop i).take chunk_size)) := by
        simp [send_blockkit_paginated, slack_post, hst] at h
        exact h.symm
      subst htr
      refine ⟨rfl, fun hne => absurd hst hne, fun p _ _ => hst, ?_⟩
      intro t bs hmem
      rcases List.mem_cons.mp hmem with heq | hmap
      · cases heq
      · rcases List.mem_map.mp hmap with ⟨i, _, heq⟩
        cases heq
        rfl
    · have htr : tr = [Payload.text header_text] := by
        simp [send_blockkit_paginated, slack_post, hst] at h
        exact h.symm
      subst htr
      refine ⟨rfl, fun _ => rfl, ?_, ?_⟩
      · intro p hp hpage
        rcases List.mem_singleton.mp hp with rfl
        cases hpage
      · intro t bs hmem
        rcases List.mem_singleton.mp hmem with h'
        cases h'

def netC5w : Payload → SlackResponse := fun _ => { status := 500, ts := none }

theorem C5_header_gates_pages_witness :
    [Payload.text header_text].head? = some (Payload.text header_text)
  ∧ ((netC5w (Payload.text header_text)).status ≠ 200 →
      [Payload.text header_text] = [Payload.text header_text])
  ∧ (∀ p ∈ [Payload.text header_text], isPage p = true →
      (netC5w (Payload.text header_text)).status = 200)
  ∧ (∀ t bs, Payload.page t bs ∈ [Payload.text header_text] →
      t = (netC5w (Payload.text header_text)).ts) :=
  C5_header_gates_pages (some "w") netC5w [Block.divider] 8 [Payload.text header_text] rfl

def netC5 : Payload → SlackResponse := fun _ => { status := 200, ts := none }

/-- C5 counterexample: a header response with status 200 but no `"ts"` field
yields no context identifier, yet a page request is still issued (scoped to
`thread_ts = None`), contradicting "never issues a page-payload request
before the header request has ... yielded a context identifier". -/
theorem C5_counterexample :
    send_blockkit_paginated (some "w") netC5 [Block.divider] 8
      = Except.ok [Payload.text header_text, Payload.page none [Block.divider]]
  ∧ isPage (Payload.page none [Block.divider]) = true
  ∧ (netC5 (Payload.text header_text)).ts = none := ⟨rfl, rfl, rfl⟩

def parseC2 : String → Option Int := fun _ => some 0

def rjobC2 : RemotiveJob :=
  { title := "cloud engineer", description := "", candidate_required_location := "remote",
    publication_date := some "2026-01-01T00:00:00Z", company_name := none, tags := [],
    url := none }

/-- C2 counterexample: a Remotive item that passes every filter but carries
no `url` field is emitted with `url = None` — it is not dropped before
aggregation. -/
theorem C2_counterexample :
    (search_remotive 0 parseC2 (some [rjobC2])).map Job.url = [none] := by decide

/-- C2 amended: the three scraper adapters (LinkedIn, Indeed, Naukri) build
their urls by prefixing a fixed non-empty literal (or copy a regex match
anchored on a non-empty literal, for Naukri), so every record they emit has
a present, non-empty url; the structured-API adapters copy the origin's url
field unchecked and may emit an absent url. -/
theorem C2_scraper_urls (lif : String → Option (List String))
    (inf : String → Option IndeedExtract) (nf : String → Option NaukriExtract)
    (hn : ∀ k e, nf k = some e → ∀ l ∈ e.links, l ≠ "") :
    (∀ r ∈ search_linkedin lif, ∃ s, r.url = some s ∧ s ≠ "")
  ∧ (∀ r ∈ search_indeed inf, ∃ s, r.url = some s ∧ s ≠ "")
  ∧ (∀ r ∈ search_naukri nf, ∃ s, r.url = some s ∧ s ≠ "") := by
  refine ⟨?_, ?_, ?_⟩
  · intro r hr
    rcases List.mem_flatMap.mp hr with ⟨k, _, hrk⟩
    cases hfk : lif k with
    | none => rw [hfk] at hrk; cases hrk
    | some ids =>
      rw [hfk] at hrk
      rcases List.mem_map.mp hrk with ⟨job_id, _, heq⟩
      subst heq
      exact ⟨_, rfl, append_ne_empty_left _ _ (by decide)⟩
  · intro r hr
    rcases List.mem_flatMap.mp hr with ⟨k, _, hrk⟩
    cases hfk : inf k with
    | none => rw [hfk] at hrk; cases hrk
    | some e =>
      rw [hfk] at hrk
      rcases mem_guard_filterMap _ _ _ _ hrk with ⟨i, _, _, heq⟩
      subst heq
      exact ⟨_, rfl, append_ne_empty_left _ _ (by decide)⟩
  · intro r hr
    rcases List.mem_flatMap.mp hr with ⟨k, _, hrk⟩
    cases hfk : nf k with
    | none => rw [hfk] at hrk; cases hrk
    | some e =>
      rw [hfk] at hrk
      rcases mem_guard_filterMap _ _ _ _ hrk with ⟨i, hi, _, heq⟩
      subst heq
      have hilt : i < e.links.length := by
        have hb : i < naukri_bound e := List.mem_range.mp hi
        have h1 : naukri_bound e ≤ Nat.min e.companies.length e.links.length :=
          Nat.min_le_right _ _
        have h2 : Nat.min e.companies.length e.links.length ≤ e.links.length :=
          Nat.min_le_right _ _
        omega
      refine ⟨_, rfl, ?_⟩
      have hmem : e.links.getD i "" ∈ e.links := getD_mem_of_lt _ _ _ hilt
      exact hn k e hfk _ hmem

def lifC2 : String → Option (List String) :=
  fun k => if k = "DevOps Engineer" then some ["4021"] else none

def infC2 : String → Option IndeedExtract := fun _ => none

def nfC2 : String → Option NaukriExtract := fun _ => none

theorem C2_scraper_urls_witness :
    ∃ s, (linkedin_record "DevOps Engineer" "4021").url = some s ∧ s ≠ "" :=
  (C2_scraper_urls lifC2 infC2 nfC2
    (by intro k e h; exact absurd h (by simp [nfC2]))).1
    (linkedin_record "DevOps Engineer" "4021") (by decide)

/-- C1 amended: every record any adapter emits passed the role filter the
adapter actually evaluates — `matches_role(title, description)` with the
extracted description for Remotive/ArbeitNow/Lever/Greenhouse,
`matches_role(title, None)` (vacuously, the title being one of the query
keywords, each of which matches) for LinkedIn, and `matches_role(title,
title)` — the title doubling as the description — for Indeed and Naukri. -/
theorem C1_role_filter (now : Int) (parse : String → Option Int)
    (rf : Option (List RemotiveJob)) (af : Option (List ArbeitnowJob))
    (lf : String → Option (List LeverJob)) (gf : String → Option (List GreenhouseJob))
    (lif : String → Option (List String)) (inf : String → Option IndeedExtract)
    (nf : String → Option NaukriExtract) :
    (∀ r ∈ search_remotive now parse rf, ∃ data j, rf = some data ∧ j ∈ data ∧
        r.title = j.title ∧ matches_role j.title (some j.description) = true)
  ∧ (∀ r ∈ search_arbeitnow now parse af, ∃ data j, af = some data ∧ j ∈ data ∧
        r.title = j.title ∧ matches_role j.title (some j.description) = true)
  ∧ (∀ r ∈ search_lever lf, ∃ c ps j, lf c = some ps ∧ j ∈ ps ∧
        r.title = j.text ∧ matches_role j.text (some j.description) = true)
  ∧ (∀ r ∈ search_greenhouse gf, ∃ c ds j, gf c = some ds ∧ j ∈ ds ∧
        r.title = j.title ∧ matches_role j.title (some j.content) = true)
  ∧ (∀ r ∈ search_linkedin lif, matches_role r.title none = true)
  ∧ (∀ r ∈ search_indeed inf, matches_role r.title (some r.title) = true)
  ∧ (∀ r ∈ search_naukri nf, matches_role r.title (some r.title) = true) := by
  refine ⟨?_, ?_, ?_, ?_, ?_, ?_, ?_⟩
  · intro r hr
    cases rf with
    | none => cases hr
    | some data =>
      rcases mem_guard_filterMap _ _ _ _ hr with ⟨j, hj, hg, heq⟩
      subst heq
      simp only [remotive_guard, Bool.and_eq_true] at hg
      exact ⟨data, j, rfl, hj, rfl, hg.1.1⟩
  · intro r hr
    cases af with
    | none => cases hr
    | some data =>
      rcases mem_guard_filterMap _ _ _ _ hr with ⟨j, hj, hg, heq⟩
      subst heq
      simp only [arbeitnow_guard, Bool.and_eq_true] at hg
      exact ⟨data, j, rfl, hj, rfl, hg.1.1⟩
  · intro r hr
    rcases List.mem_flatMap.mp hr with ⟨c, _, hrc⟩
    cases hfc : lf c with
    | none => rw [hfc] at hrc; cases hrc
    | some ps =>
      rw [hfc] at hrc
      rcases mem_guard_filterMap _ _ _ _ hrc with ⟨j, hj, hg, heq⟩
      subst heq
      simp only [lever_guard, Bool.and_eq_true] at hg
      exact ⟨c, ps, j, hfc, hj, rfl, hg.1⟩
  · intro r hr
    rcases List.mem_flatMap.mp hr with ⟨c, _, hrc⟩
    cases hfc : gf c with
    | none => rw [hfc] at hrc; cases hrc
    | some ds =>
      rw [hfc] at hrc
      rcases mem_guard_filterMap _ _ _ _ hrc with ⟨j, hj, hg, heq⟩
      subst heq
      simp only [greenhouse_guard, Bool.and_eq_true] at hg
      exact ⟨c, ds, j, hfc, hj, rfl, hg.1⟩
  · intro r hr
    rcases List.mem_flatMap.mp hr with ⟨k, hk, hrk⟩
    cases hfk : lif k with
    | none => rw [hfk] at hrk; cases hrk
    | some ids =>
      rw [hfk] at hrk
      rcases List.mem_map.mp hrk with ⟨job_id, _, heq⟩
      subst heq
      have hall : ∀ k ∈ LINKEDIN_KEYWORDS, matches_role k none = true := by decide
      exact hall k hk
  · intro r hr
    rcases List.mem_flatMap.mp hr with ⟨k, _, hrk⟩
    cases hfk : inf k with
    | none => rw [hfk] at hrk; cases hrk
    | some e =>
      rw [hfk] at hrk
      rcases mem_guard_filterMap _ _ _ _ hrk with ⟨i, _, hg, heq⟩
      subst heq
      exact hg
  · intro r hr
    rcases List.mem_flatMap.mp hr with ⟨k, _, hrk⟩
    cases hfk : nf k with
    | none => rw [hfk] at hrk; cases hrk
    | some e =>
      rw [hfk] at hrk
      rcases mem_guard_filterMap _ _ _ _ hrk with ⟨i, _, hg, heq⟩
      subst heq
      exact hg

def parseC1 : String → Option Int := fun _ => none

def lifC1 : String → Option (List String) :=
  fun k => if k = "DevOps Engineer" then some ["77"] else none

theorem C1_role_filter_witness :
    matches_role (linkedin_record "DevOps Engineer" "77").title none = true :=
  (C1_role_filter 0 parseC1 none none noFetch noFetch lifC1 noFetch noFetch).2.2.2.2.1
    (linkedin_record "DevOps Engineer" "77") (by decide)

def exC1 : IndeedExtract :=
  { titles := ["engineer cloud"], companies := ["c"], locations := [], ids := ["1"] }

def infC1 : String → Option IndeedExtract :=
  fun k => if k = "DevOps Engineer" then some exC1 else none

/-- C1 counterexample: Indeed emits a record titled "engineer cloud" —
`matches_role("engineer cloud", "engineer cloud")` is true because the
keyword "cloud engineer" spans the junction of the doubled title — although
`matches_role` on the record's title (with no extracted description) is
false, so the record did not pass the role filter as the claim states it. -/
theorem C1_counterexample :
    (search_indeed infC1).map Job.title = ["engineer cloud"]
  ∧ matches_role "engineer cloud" none = false := by
  exact ⟨by decide, by decide⟩

/-- C7 amended: each scraped-HTML adapter emits positionally-paired items —
every emitted record is built entirely from one index `i` — and the iterated
count is truncated to `min(len(titles), len(companies), len(ids))` for
Indeed (its `locations` list is NOT part of the minimum; an under-matching
`locations` falls back to "India" at the paired index) and to
`min(len(titles), len(companies), len(links))` — all three extracted lists —
for Naukri. -/
theorem C7_positional_pairing (e : IndeedExtract) (en : NaukriExtract) :
    ((indeed_items e).length ≤ indeed_bound e
  ∧ ∀ r ∈ indeed_items e, ∃ i, i < indeed_bound e ∧ r = indeed_record e i)
  ∧ ((naukri_items en).length ≤ naukri_bound en
  ∧ ∀ r ∈ naukri_items en, ∃ i, i < naukri_bound en ∧ r = naukri_record en i) := by
  refine ⟨⟨?_, ?_⟩, ⟨?_, ?_⟩⟩
  · calc (indeed_items e).length ≤ (List.range (indeed_bound e)).length :=
          List.length_filterMap_le _ _
      _ = indeed_bound e := List.length_range _
  · intro r hr
    rcases mem_guard_filterMap _ _ _ _ hr with ⟨i, hi, _, heq⟩
    exact ⟨i, List.mem_range.mp hi, heq⟩
  · calc (naukri_items en).length ≤ (List.range (naukri_bound en)).length :=
          List.length_filterMap_le _ _
      _ = naukri_bound en := List.length_range _
  · intro r hr
    rcases mem_guard_filterMap _ _ _ _ hr with ⟨i, hi, _, heq⟩
    exact ⟨i, List.mem_range.mp hi, heq⟩

def eC7w : IndeedExtract :=
  { titles := ["cloud engineer"], companies := ["a"], locations := ["x"], ids := ["1"] }

def enC7w : NaukriExtract :=
  { titles := ["cloud engineer"], companies := ["a"],
    links := ["https://www.naukri.com/x"] }

theorem C7_positional_pairing_witness :
    (∃ i, i < indeed_bound eC7w ∧ indeed_record eC7w 0 = indeed_record eC7w i)
  ∧ (∃ i, i < naukri_bound enC7w ∧ naukri_record enC7w 0 = naukri_record enC7w i) :=
  ⟨(C7_positional_pairing eC7w enC7w).1.2 (indeed_record eC7w 0) (by decide),
   (C7_positional_pairing eC7w enC7w).2.2 (naukri_record enC7w 0) (by decide)⟩

def exC7 : IndeedExtract :=
  { titles := ["cloud engineer", "cloud engineer"], companies := ["a", "b"],
    locations := [], ids := ["1", "2"] }

def infC7 : String → Option IndeedExtract :=
  fun k => if k = "DevOps Engineer" then some exC7 else none

/-- C7 counterexample: with an empty `locations` extraction (the shortest
extracted field list, length 0), Indeed still emits 2 records — the iterated
count is not truncated to the shortest extracted field list's length. -/
theorem C7_counterexample :
    (search_indeed infC7).length = 2
  ∧ Nat.min exC7.titles.length (Nat.min exC7.companies.length
      (Nat.min exC7.locations.length exC7.ids.length)) = 0 := by
  exact ⟨by decide, by decide⟩

end JobAlerts
